import Mathlib

/-!
The class-file signature check of tinyJVMGo.

A shallow embedding of `jvm/classfile.go` (`MagicNumber`, `ReadClassMagic`,
`VerifyClassMagic`) and of `main.go` (`main`), together with the part of the Go
standard library and of the operating system those functions call:
`os.Open`, `(*os.File).Read`, `(*os.File).Close`, `binary.BigEndian.Uint32`,
`fmt.Errorf` and the `Error()` text of the error values involved.

Go functions that perform I/O are embedded with explicit state passing: they
take the `World` (the files and the number of descriptors the process holds)
and return an `Outcome` carrying the returned value, the returned error
(`none` for `nil`), the world afterwards and the system calls issued.
-/

namespace TinyJVM

/-! ## Data model -/

/-- Go's `byte`: an unsigned 8-bit value. -/
abbrev Byte := Fin 256

/-- Go `error` values that can arise in this program. -/
inductive GoError where
  /-- A `syscall.Errno`, identified by its message. -/
  | errno (text : String)
  /-- The sentinel `io.EOF`. -/
  | eof
  /-- A `*fs.PathError` with fields `Op`, `Path`, `Err`. -/
  | pathError (op path : String) (err : GoError)
  /-- The `*fmt.wrapError` built by `fmt.Errorf` with a `%w` verb: the formatted text and the wrapped error. -/
  | wrapError (msg : String) (err : GoError)
  /-- The `*errors.errorString` built by `fmt.Errorf` without a `%w` verb. -/
  | errorString (s : String)
  deriving DecidableEq, Repr

/-- The method `Error()` of each error value: its text. -/
def GoError.Error : GoError → String
  | .errno text => text
  | .eof => "EOF"
  | .pathError op path err => op ++ " " ++ path ++ ": " ++ err.Error
  | .wrapError msg _ => msg
  | .errorString s => s

/-- What a path names in the file system. -/
inductive Entry where
  /-- Nothing: opening fails with `ENOENT`. -/
  | absent
  /-- Something the process may not open: opening fails with `EACCES`. -/
  | inaccessible
  /-- A directory: opening succeeds, reading fails with `EISDIR`. -/
  | directory
  /-- A readable regular file with the given content. -/
  | regular (data : List Byte)
  deriving DecidableEq, Repr

/-- The state the program runs against: the file system and the number of
file descriptors the process currently holds. -/
structure World where
  files : String → Entry
  openCount : Nat

/-- An open file: Go's `*os.File`, with the name it was opened under and the
read offset. -/
structure File where
  name : String
  offset : Nat
  deriving DecidableEq, Repr

/-- The system calls a function issues, in order. -/
inductive Syscall where
  | open (path : String)
  | read (path : String) (count : Nat)
  | close (path : String)
  deriving DecidableEq, Repr

/-- The result of running an I/O function: returned value, returned error
(`none` is `nil`), the world afterwards and the system calls issued. -/
structure Outcome (α : Type) where
  val : α
  err : Option GoError
  world : World
  trace : List Syscall

/-! ## The standard library and the operating system -/

/-- Go's `os.Open(name)`: opens the named file for reading. On failure the
error is a `*fs.PathError` with `Op = "open"`; on success the process holds one
more descriptor. -/
def os.Open (name : String) (w : World) : Except GoError File × World :=
  match w.files name with
  | .absent => (.error (.pathError "open" name (.errno "no such file or directory")), w)
  | .inaccessible => (.error (.pathError "open" name (.errno "permission denied")), w)
  | .directory => (.ok { name := name, offset := 0 }, { w with openCount := w.openCount + 1 })
  | .regular _ => (.ok { name := name, offset := 0 }, { w with openCount := w.openCount + 1 })

/-- Writes `src` over the front of `dst` (Go's `copy(dst, src)` for
`src.length ≤ dst.length`). -/
def overwrite (dst src : List Byte) : List Byte :=
  src ++ dst.drop src.length

/-- Go's `(*os.File).Read(b)`: one read of up to `len(b)` bytes at the file's
offset. Returns the count `n`, the error, the buffer afterwards and the file
with its offset advanced. At end of file it returns `0, io.EOF`; on a
directory the read fails with a `*fs.PathError` with `Op = "read"`. -/
def File.Read (f : File) (b : List Byte) (w : World) :
    Nat × Option GoError × List Byte × File :=
  match w.files f.name with
  | .regular data =>
      let got := (data.drop f.offset).take b.length
      if got.length = 0 ∧ 0 < b.length then (0, some .eof, b, f)
      else (got.length, none, overwrite b got, { f with offset := f.offset + got.length })
  | .directory => (0, some (.pathError "read" f.name (.errno "is a directory")), b, f)
  | _ => (0, some (.pathError "read" f.name (.errno "bad file descriptor")), b, f)

/-- Go's `(*os.File).Close()`: the process releases the descriptor. -/
def File.Close (_f : File) (w : World) : World :=
  { w with openCount := w.openCount - 1 }

/-- Go's `binary.BigEndian.Uint32(b)`:
`uint32(b[3]) | uint32(b[2])<<8 | uint32(b[1])<<16 | uint32(b[0])<<24`,
each shift taken in 32 bits; `none` stands for the index-out-of-range panic
on a slice shorter than 4. -/
def binary.BigEndian.Uint32 (b : List Byte) : Option Nat :=
  match b with
  | b0 :: b1 :: b2 :: b3 :: _ =>
      some (b3.val ||| (b2.val <<< 8) % 2 ^ 32 ||| (b1.val <<< 16) % 2 ^ 32
        ||| (b0.val <<< 24) % 2 ^ 32)
  | _ => none

/-! ## `jvm/classfile.go` -/

/-- The constant `MagicNumber uint32 = 0xCAFEBABE`. -/
def MagicNumber : Nat := 0xCAFEBABE

/-- The function `ReadClassMagic(filepath) (uint32, error)`. -/
def ReadClassMagic (filepath : String) (w : World) : Outcome Nat :=
  match os.Open filepath w with
  | (.error err, w1) =>
      { val := 0
        err := some (.wrapError ("error opening file '" ++ filepath ++ "': " ++ err.Error) err)
        world := w1
        trace := [.open filepath] }
  | (.ok file, w1) =>
      -- buffer := make([]byte, 4)
      let buffer : List Byte := List.replicate 4 0
      match File.Read file buffer w1 with
      | (n, rerr, buffer1, file1) =>
        -- the deferred file.Close() runs on every return below
        let w2 := File.Close file1 w1
        let tr := [Syscall.open filepath, .read filepath buffer.length, .close filepath]
        match rerr with
        | some err =>
            { val := 0
              err := some (.wrapError
                ("error reading from file '" ++ filepath ++ "': " ++ err.Error) err)
              world := w2
              trace := tr }
        | none =>
            if n < 4 then
              { val := 0
                err := some (.errorString ("file '" ++ filepath
                  ++ "' is too small; expected at least 4 bytes, got " ++ toString n))
                world := w2
                trace := tr }
            else
              { val := (binary.BigEndian.Uint32 buffer1).getD 0
                err := none
                world := w2
                trace := tr }

/-- The function `VerifyClassMagic(filepath) (bool, error)`. -/
def VerifyClassMagic (filepath : String) (w : World) : Outcome Bool :=
  let r := ReadClassMagic filepath w
  match r.err with
  | some err => { val := false, err := some err, world := r.world, trace := r.trace }
  | none =>
      if r.val ≠ MagicNumber then
        { val := false, err := none, world := r.world, trace := r.trace }
      else
        { val := true, err := none, world := r.world, trace := r.trace }

/-! ## `main.go` -/

/-- Go's `%X` verb on an unsigned integer: upper-case hexadecimal, no padding. -/
def fmtX (n : Nat) : String :=
  String.mk ((Nat.toDigits 16 n).map Char.toUpper)

/-- What a run of the program leaves behind: the text written to standard
output, the exit code and the world afterwards. -/
structure Run where
  stdout : List String
  exitCode : Nat
  world : World

/-- The function `main()`, as a function of `os.Args` and the world. A call of
`os.Exit(1)` ends the run with code 1; returning from `main` ends it with
code 0. -/
def main (args : List String) (w : World) : Run :=
  if h : args.length < 2 then
    { stdout := ["Usage: tiny-jvm <class_file_path>\n"], exitCode := 1, world := w }
  else
    let filepath := args.get ⟨1, by omega⟩
    let v := VerifyClassMagic filepath w
    match v.err with
    | some err =>
        { stdout := ["Error verifying magic number for '" ++ filepath ++ "': "
            ++ err.Error ++ "\n"]
          exitCode := 1
          world := v.world }
    | none =>
        let verdict :=
          if v.val then
            "Successfully verified magic number for '" ++ filepath
              ++ "'. It is a valid Java class file.\n"
          else
            "Magic number for '" ++ filepath
              ++ "' is invalid. It is NOT a valid Java class file.\n"
        let r := ReadClassMagic filepath v.world
        match r.err with
        | some err =>
            { stdout := [verdict, "Error reading magic number: " ++ err.Error ++ "\n"]
              exitCode := 0
              world := r.world }
        | none =>
            { stdout := [verdict, "Read raw magic number: 0x" ++ fmtX r.val ++ "\n",
                "Expected magic number: 0x" ++ fmtX MagicNumber ++ "\n"]
              exitCode := 0
              world := r.world }

/-! ## Error kinds

The three errors `ReadClassMagic` builds, recognised by the format string of
the `fmt.Errorf` call that builds each. -/

/-- The Open Error: `fmt.Errorf("error opening file '%s': %w", filepath, err)`. -/
def isOpenError (filepath : String) : GoError → Bool
  | .wrapError msg cause => msg == "error opening file '" ++ filepath ++ "': " ++ cause.Error
  | _ => false

/-- The Read Error: `fmt.Errorf("error reading from file '%s': %w", filepath, err)`. -/
def isReadError (filepath : String) : GoError → Bool
  | .wrapError msg cause =>
      msg == "error reading from file '" ++ filepath ++ "': " ++ cause.Error
  | _ => false

/-- The Truncated-Input Error:
`fmt.Errorf("file '%s' is too small; expected at least 4 bytes, got %d", filepath, n)`. -/
def isTruncatedError (filepath : String) (n : Nat) : GoError → Bool
  | .errorString s =>
      s == "file '" ++ filepath ++ "' is too small; expected at least 4 bytes, got "
        ++ toString n
  | _ => false

/-- The system calls of a call that got past `os.Open`. -/
def fullTrace (filepath : String) : List Syscall :=
  [.open filepath, .read filepath 4, .close filepath]

/-- A small file system used for concrete runs. -/
def demoWorld : World :=
  { files := fun p =>
      if p = "Hello.class" then .regular [0xCA, 0xFE, 0xBA, 0xBE, 0, 0, 0, 52]
      else if p = "dead.bin" then .regular [0xDE, 0xAD, 0xBE, 0xEF]
      else if p = "short.class" then .regular [0xCA, 0xFE, 0xBA]
      else if p = "empty.class" then .regular []
      else if p = "dir" then .directory
      else if p = "secret" then .inaccessible
      else .absent
    openCount := 3 }

/-- A file system in which every path names the same 4-byte file. -/
def bareWorld : World :=
  { files := fun _ => .regular [0xCA, 0xFE, 0xBA, 0xBE]
    openCount := 0 }

/-! ## Basic lemmas -/

theorem World.close_open (w : World) :
    File.Close f { w with openCount := w.openCount + 1 } = w := by
  cases w
  simp [File.Close]

/-- A read leaves the length of the buffer as it was. -/
theorem Read_buffer_length (f : File) (b : List Byte) (w : World) :
    (File.Read f b w).2.2.1.length = b.length := by
  unfold File.Read
  split
  · dsimp only
    split_ifs
    · rfl
    · simp only [overwrite, List.length_append, List.length_drop, List.length_take]
      omega
  · rfl
  · rfl

/-- Decoding a slice of at least 4 bytes does not go out of range. -/
theorem Uint32_isSome (b : List Byte) (h : 4 ≤ b.length) :
    (binary.BigEndian.Uint32 b).isSome = true := by
  match b, h with
  | _ :: _ :: _ :: _ :: _, _ => rfl

/-- Big-endian decoding written with sums: for bytes the bitwise ors of the
shifted values add up. -/
theorem Uint32_eq_sum (b0 b1 b2 b3 : Byte) (rest : List Byte) :
    binary.BigEndian.Uint32 (b0 :: b1 :: b2 :: b3 :: rest)
      = some (b0.val * 2 ^ 24 + b1.val * 2 ^ 16 + b2.val * 2 ^ 8 + b3.val) := by
  have h0 := b0.isLt
  have h1 := b1.isLt
  have h2 := b2.isLt
  have h3 := b3.isLt
  simp only [binary.BigEndian.Uint32, Option.some.injEq, Nat.shiftLeft_eq]
  rw [Nat.mod_eq_of_lt (by omega : b2.val * 2 ^ 8 < 2 ^ 32),
    Nat.mod_eq_of_lt (by omega : b1.val * 2 ^ 16 < 2 ^ 32),
    Nat.mod_eq_of_lt (by omega : b0.val * 2 ^ 24 < 2 ^ 32)]
  have e1 : b3.val ||| b2.val * 2 ^ 8 = b2.val * 2 ^ 8 + b3.val := by
    rw [Nat.or_comm, Nat.mul_comm b2.val, ← Nat.mul_add_lt_is_or (by omega)]
  have e2 : (b2.val * 2 ^ 8 + b3.val) ||| b1.val * 2 ^ 16
      = b1.val * 2 ^ 16 + (b2.val * 2 ^ 8 + b3.val) := by
    rw [Nat.or_comm, Nat.mul_comm b1.val, ← Nat.mul_add_lt_is_or (by omega)]
  have e3 : (b1.val * 2 ^ 16 + (b2.val * 2 ^ 8 + b3.val)) ||| b0.val * 2 ^ 24
      = b0.val * 2 ^ 24 + (b1.val * 2 ^ 16 + (b2.val * 2 ^ 8 + b3.val)) := by
    rw [Nat.or_comm, Nat.mul_comm b0.val, ← Nat.mul_add_lt_is_or (by omega)]
  rw [e1, e2, e3]
  omega

/-- The text of the Read Error that wraps `io.EOF`. -/
theorem read_eof_text (path : String) :
    "error reading from file '" ++ path ++ "': " ++ GoError.eof.Error
      = "error reading from file '" ++ path ++ "': EOF" := by
  rw [String.append_assoc _ "': " GoError.eof.Error]
  rfl

/-- What `ReadClassMagic` returns on a regular file, by the length of the file. -/
theorem ReadClassMagic_regular (w : World) (path : String) (data : List Byte)
    (h : w.files path = .regular data) :
    ReadClassMagic path w =
      if data.length = 0 then
        { val := 0
          err := some (.wrapError ("error reading from file '" ++ path ++ "': EOF") .eof)
          world := w, trace := fullTrace path }
      else if data.length < 4 then
        { val := 0
          err := some (.errorString ("file '" ++ path
            ++ "' is too small; expected at least 4 bytes, got " ++ toString data.length))
          world := w, trace := fullTrace path }
      else
        { val := (binary.BigEndian.Uint32 (data.take 4)).getD 0
          err := none, world := w, trace := fullTrace path } := by
  unfold ReadClassMagic os.Open
  rw [h]
  simp only [File.Read, h, List.length_replicate, List.drop_zero]
  match data, h with
  | [], _ =>
      simp [fullTrace, World.close_open, read_eof_text]
  | [a], _ => simp [overwrite, fullTrace, World.close_open]
  | [a, b], _ => simp [overwrite, fullTrace, World.close_open]
  | [a, b, c], _ => simp [overwrite, fullTrace, World.close_open]
  | a :: b :: c :: d :: rest, _ =>
      have hlen : ¬ (a :: b :: c :: d :: rest).length < 4 := by
        simp only [List.length_cons]
        omega
      rw [if_neg hlen]
      simp [overwrite, fullTrace, World.close_open]

/-- Opening a path that names nothing fails with `ENOENT`. -/
theorem Open_absent (w : World) (path : String) (h : w.files path = .absent) :
    os.Open path w
      = (.error (.pathError "open" path (.errno "no such file or directory")), w) := by
  simp [os.Open, h]

/-- Opening a path the process may not open fails with `EACCES`. -/
theorem Open_inaccessible (w : World) (path : String) (h : w.files path = .inaccessible) :
    os.Open path w = (.error (.pathError "open" path (.errno "permission denied")), w) := by
  simp [os.Open, h]

/-- What `ReadClassMagic` returns when `os.Open` fails. -/
theorem ReadClassMagic_open_fails (w : World) (path : String) (cause : GoError)
    (h : os.Open path w = (.error cause, w)) :
    ReadClassMagic path w =
      { val := 0
        err := some (.wrapError ("error opening file '" ++ path ++ "': " ++ cause.Error) cause)
        world := w, trace := [.open path] } := by
  unfold ReadClassMagic
  rw [h]

/-- What `ReadClassMagic` returns on a directory. -/
theorem ReadClassMagic_directory (w : World) (path : String)
    (h : w.files path = .directory) :
    ReadClassMagic path w =
      { val := 0
        err := some (.wrapError ("error reading from file '" ++ path ++ "': "
          ++ (GoError.pathError "read" path (.errno "is a directory")).Error)
          (.pathError "read" path (.errno "is a directory")))
        world := w, trace := fullTrace path } := by
  unfold ReadClassMagic os.Open
  rw [h]
  simp [File.Read, h, fullTrace, World.close_open]

/-- The world after `ReadClassMagic` is the world before: the file system is
not written and the descriptor opened is released on every return. -/
theorem ReadClassMagic_world (w : World) (path : String) :
    (ReadClassMagic path w).world = w := by
  cases h : w.files path with
  | absent => rw [ReadClassMagic_open_fails w path _ (Open_absent w path h)]
  | inaccessible => rw [ReadClassMagic_open_fails w path _ (Open_inaccessible w path h)]
  | directory => rw [ReadClassMagic_directory w path h]
  | regular data =>
      rw [ReadClassMagic_regular w path data h]
      split_ifs <;> rfl

/-- A failing `ReadClassMagic` returns the value 0. -/
theorem ReadClassMagic_val_of_err (w : World) (path : String)
    (h : (ReadClassMagic path w).err ≠ none) : (ReadClassMagic path w).val = 0 := by
  cases hf : w.files path with
  | absent => rw [ReadClassMagic_open_fails w path _ (Open_absent w path hf)]
  | inaccessible => rw [ReadClassMagic_open_fails w path _ (Open_inaccessible w path hf)]
  | directory => rw [ReadClassMagic_directory w path hf]
  | regular data =>
      rw [ReadClassMagic_regular w path data hf] at h ⊢
      split_ifs at h ⊢ <;> simp_all

/-- The error of `VerifyClassMagic` is the error of `ReadClassMagic`. -/
theorem VerifyClassMagic_err (w : World) (path : String) :
    (VerifyClassMagic path w).err = (ReadClassMagic path w).err := by
  unfold VerifyClassMagic
  cases h : (ReadClassMagic path w).err with
  | some e => simp [h]
  | none => simp only [h]; split_ifs <;> rfl

/-- The world after `VerifyClassMagic` is the world before. -/
theorem VerifyClassMagic_world (w : World) (path : String) :
    (VerifyClassMagic path w).world = w := by
  have hw := ReadClassMagic_world w path
  unfold VerifyClassMagic
  cases h : (ReadClassMagic path w).err with
  | some e => simpa [h] using hw
  | none => simp only [h]; split_ifs <;> exact hw

/-- The boolean of `VerifyClassMagic`, from the result of `ReadClassMagic`. -/
theorem VerifyClassMagic_val (w : World) (path : String) :
    (VerifyClassMagic path w).val
      = decide ((ReadClassMagic path w).err = none ∧ (ReadClassMagic path w).val = MagicNumber) := by
  unfold VerifyClassMagic
  cases h : (ReadClassMagic path w).err with
  | some e => simp [h]
  | none => simp only [h]; split_ifs with hv <;> simp_all

/-- On a regular file of length at least 4, `ReadClassMagic` succeeds with the
decoding of the first four bytes. -/
theorem ReadClassMagic_long (w : World) (path : String) (data : List Byte)
    (h : w.files path = .regular data) (hlen : 4 ≤ data.length) :
    ReadClassMagic path w =
      { val := (binary.BigEndian.Uint32 (data.take 4)).getD 0
        err := none, world := w, trace := fullTrace path } := by
  rw [ReadClassMagic_regular w path data h, if_neg (by omega), if_neg (by omega)]

/-- On a file starting with b0 b1 b2 b3, `ReadClassMagic` succeeds with the sum
of the four bytes weighted by powers of 256. -/
theorem ReadClassMagic_four (w : World) (path : String) (b0 b1 b2 b3 : Byte)
    (rest : List Byte) (h : w.files path = .regular (b0 :: b1 :: b2 :: b3 :: rest)) :
    ReadClassMagic path w =
      { val := b0.val * 2 ^ 24 + b1.val * 2 ^ 16 + b2.val * 2 ^ 8 + b3.val
        err := none, world := w, trace := fullTrace path } := by
  rw [ReadClassMagic_long w path _ h (by simp)]
  simp only [List.take_succ_cons, List.take_zero, Uint32_eq_sum, Option.getD_some]

/-- The system calls of `VerifyClassMagic` are those of `ReadClassMagic`. -/
theorem VerifyClassMagic_trace (w : World) (path : String) :
    (VerifyClassMagic path w).trace = (ReadClassMagic path w).trace := by
  unfold VerifyClassMagic
  cases h : (ReadClassMagic path w).err with
  | some e => simp [h]
  | none => simp only [h]; split_ifs <;> rfl

/-- On a regular file of 1, 2 or 3 bytes both functions fail with the
Truncated-Input Error carrying the length of the file, after one read, and
the value returned is the zero value. -/
theorem short_file_truncated (w : World) (path : String) (data : List Byte)
    (h : w.files path = .regular data) (hpos : 0 < data.length) (hlen : data.length < 4) :
    (ReadClassMagic path w).err = some (.errorString ("file '" ++ path
      ++ "' is too small; expected at least 4 bytes, got " ++ toString data.length)) ∧
    (VerifyClassMagic path w).err = (ReadClassMagic path w).err ∧
    (∀ e, (ReadClassMagic path w).err = some e →
      isTruncatedError path data.length e = true ∧ isReadError path e = false ∧
      isOpenError path e = false) ∧
    (ReadClassMagic path w).val = 0 ∧ (VerifyClassMagic path w).val = false := by
  rw [VerifyClassMagic_val, VerifyClassMagic_err, ReadClassMagic_regular w path data h,
    if_neg (by omega), if_pos hlen]
  refine ⟨rfl, rfl, ?_, rfl, by simp⟩
  intro e he
  simp only [Option.some.injEq] at he
  subst he
  simp [isTruncatedError, isReadError, isOpenError]

/-! ## The claims -/

/-- C1: on every file of length at least 4 whose first four bytes are
b0 b1 b2 b3, `ReadClassMagic` returns no error and the value
b0*2^24 + b1*2^16 + b2*2^8 + b3, which fits in 32 bits (big-endian, most
significant byte first). -/
theorem C1_ReadClassMagic_bigEndian (w : World) (path : String) (b0 b1 b2 b3 : Byte)
    (rest : List Byte) (h : w.files path = .regular (b0 :: b1 :: b2 :: b3 :: rest)) :
    (ReadClassMagic path w).err = none ∧
    (ReadClassMagic path w).val
      = b0.val * 2 ^ 24 + b1.val * 2 ^ 16 + b2.val * 2 ^ 8 + b3.val ∧
    (ReadClassMagic path w).val < 2 ^ 32 := by
  rw [ReadClassMagic_four w path b0 b1 b2 b3 rest h]
  have h0 := b0.isLt
  have h1 := b1.isLt
  have h2 := b2.isLt
  have h3 := b3.isLt
  refine ⟨rfl, rfl, ?_⟩
  show b0.val * 2 ^ 24 + b1.val * 2 ^ 16 + b2.val * 2 ^ 8 + b3.val < 2 ^ 32
  omega

/-- C1 at the bytes CA FE BA BE (followed by more bytes) and DE AD BE EF: the
values read are 0xCAFEBABE and 0xDEADBEEF, without error. -/
theorem C1_ReadClassMagic_bigEndian_witness :
    demoWorld.files "Hello.class" = .regular [0xCA, 0xFE, 0xBA, 0xBE, 0, 0, 0, 52] ∧
    (ReadClassMagic "Hello.class" demoWorld).err = none ∧
    (ReadClassMagic "Hello.class" demoWorld).val = 0xCAFEBABE ∧
    demoWorld.files "dead.bin" = .regular [0xDE, 0xAD, 0xBE, 0xEF] ∧
    (ReadClassMagic "dead.bin" demoWorld).err = none ∧
    (ReadClassMagic "dead.bin" demoWorld).val = 0xDEADBEEF :=
  ⟨by decide,
   (C1_ReadClassMagic_bigEndian demoWorld "Hello.class" 0xCA 0xFE 0xBA 0xBE [0, 0, 0, 52]
      (by decide)).1,
   (C1_ReadClassMagic_bigEndian demoWorld "Hello.class" 0xCA 0xFE 0xBA 0xBE [0, 0, 0, 52]
      (by decide)).2.1,
   by decide,
   (C1_ReadClassMagic_bigEndian demoWorld "dead.bin" 0xDE 0xAD 0xBE 0xEF [] (by decide)).1,
   (C1_ReadClassMagic_bigEndian demoWorld "dead.bin" 0xDE 0xAD 0xBE 0xEF [] (by decide)).2.1⟩

/-- C2: on every file of length at least 4 whose first four bytes are
CA FE BA BE, whatever bytes follow, `VerifyClassMagic` returns `true` and no
error. -/
theorem C2_VerifyClassMagic_valid (w : World) (path : String) (rest : List Byte)
    (h : w.files path = .regular (0xCA :: 0xFE :: 0xBA :: 0xBE :: rest)) :
    (VerifyClassMagic path w).val = true ∧ (VerifyClassMagic path w).err = none := by
  rw [VerifyClassMagic_val, VerifyClassMagic_err,
    ReadClassMagic_four w path 0xCA 0xFE 0xBA 0xBE rest h]
  exact ⟨decide_eq_true ⟨rfl, rfl⟩, rfl⟩

/-- C2 at a file holding CA FE BA BE 00 00 00 34. -/
theorem C2_VerifyClassMagic_valid_witness :
    demoWorld.files "Hello.class" = .regular (0xCA :: 0xFE :: 0xBA :: 0xBE :: [0, 0, 0, 52]) ∧
    (VerifyClassMagic "Hello.class" demoWorld).val = true ∧
    (VerifyClassMagic "Hello.class" demoWorld).err = none :=
  ⟨by decide, C2_VerifyClassMagic_valid demoWorld "Hello.class" [0, 0, 0, 52] (by decide)⟩

/-- C3: on every file of length at least 4 whose first four bytes differ from
CA FE BA BE in at least one position, `VerifyClassMagic` returns `false` and no
error. -/
theorem C3_VerifyClassMagic_mismatch (w : World) (path : String) (b0 b1 b2 b3 : Byte)
    (rest : List Byte) (h : w.files path = .regular (b0 :: b1 :: b2 :: b3 :: rest))
    (hne : b0 ≠ 0xCA ∨ b1 ≠ 0xFE ∨ b2 ≠ 0xBA ∨ b3 ≠ 0xBE) :
    (VerifyClassMagic path w).val = false ∧ (VerifyClassMagic path w).err = none := by
  rw [VerifyClassMagic_val, VerifyClassMagic_err, ReadClassMagic_four w path b0 b1 b2 b3 rest h]
  refine ⟨?_, rfl⟩
  have h0 := b0.isLt
  have h1 := b1.isLt
  have h2 := b2.isLt
  have h3 := b3.isLt
  have n0 : b0 ≠ 0xCA → b0.val ≠ 202 := fun hb hv => hb (Fin.ext hv)
  have n1 : b1 ≠ 0xFE → b1.val ≠ 254 := fun hb hv => hb (Fin.ext hv)
  have n2 : b2 ≠ 0xBA → b2.val ≠ 186 := fun hb hv => hb (Fin.ext hv)
  have n3 : b3 ≠ 0xBE → b3.val ≠ 190 := fun hb hv => hb (Fin.ext hv)
  rw [decide_eq_false_iff_not]
  rintro ⟨-, hv⟩
  change b0.val * 2 ^ 24 + b1.val * 2 ^ 16 + b2.val * 2 ^ 8 + b3.val = 3405691582 at hv
  rcases hne with hb | hb | hb | hb
  · have := n0 hb
    omega
  · have := n1 hb
    omega
  · have := n2 hb
    omega
  · have := n3 hb
    omega

/-- C3 at a file holding DE AD BE EF. -/
theorem C3_VerifyClassMagic_mismatch_witness :
    demoWorld.files "dead.bin" = .regular [0xDE, 0xAD, 0xBE, 0xEF] ∧
    ((0xDE : Byte) ≠ 0xCA ∨ (0xAD : Byte) ≠ 0xFE ∨ (0xBE : Byte) ≠ 0xBA ∨ (0xEF : Byte) ≠ 0xBE) ∧
    (VerifyClassMagic "dead.bin" demoWorld).val = false ∧
    (VerifyClassMagic "dead.bin" demoWorld).err = none :=
  ⟨by decide, by decide,
   C3_VerifyClassMagic_mismatch demoWorld "dead.bin" 0xDE 0xAD 0xBE 0xEF [] (by decide)
     (by decide)⟩

/-- C7: two files of length at least 4 that agree on their first four bytes get
the same value and error from `ReadClassMagic` and the same boolean and error
from `VerifyClassMagic`, whatever follows the fourth byte and whatever the
lengths, paths and worlds are. -/
theorem C7_only_first_four_bytes (w1 w2 : World) (p1 p2 : String) (d1 d2 : List Byte)
    (h1 : w1.files p1 = .regular d1) (h2 : w2.files p2 = .regular d2)
    (l1 : 4 ≤ d1.length) (l2 : 4 ≤ d2.length) (heq : d1.take 4 = d2.take 4) :
    (ReadClassMagic p1 w1).val = (ReadClassMagic p2 w2).val ∧
    (ReadClassMagic p1 w1).err = (ReadClassMagic p2 w2).err ∧
    (VerifyClassMagic p1 w1).val = (VerifyClassMagic p2 w2).val ∧
    (VerifyClassMagic p1 w1).err = (VerifyClassMagic p2 w2).err := by
  simp only [VerifyClassMagic_val, VerifyClassMagic_err, ReadClassMagic_long w1 p1 d1 h1 l1,
    ReadClassMagic_long w2 p2 d2 h2 l2, heq, and_self]

/-- C7 at a 4-byte file and an 8-byte file in different worlds, both starting
with CA FE BA BE. -/
theorem C7_only_first_four_bytes_witness :
    (ReadClassMagic "Hello.class" demoWorld).val
      = (ReadClassMagic "x" bareWorld).val ∧
    (VerifyClassMagic "Hello.class" demoWorld).val
      = (VerifyClassMagic "x" bareWorld).val :=
  have key := C7_only_first_four_bytes demoWorld bareWorld
    "Hello.class" "x" [0xCA, 0xFE, 0xBA, 0xBE, 0, 0, 0, 52] [0xCA, 0xFE, 0xBA, 0xBE]
    (by decide) rfl (by decide) (by decide) (by decide)
  ⟨key.1, key.2.2.1⟩

/-- C4, at the length 0: on every existing readable empty file both
`ReadClassMagic` and `VerifyClassMagic` fail with the Read Error wrapping
`io.EOF`, whose text is "error reading from file '<path>': EOF"; that error is
the Read Error and not the Truncated-Input Error with count 0. -/
theorem C4_empty_file_read_error (w : World) (path : String)
    (h : w.files path = .regular []) :
    (ReadClassMagic path w).err
      = some (.wrapError ("error reading from file '" ++ path ++ "': EOF") .eof) ∧
    (VerifyClassMagic path w).err
      = some (.wrapError ("error reading from file '" ++ path ++ "': EOF") .eof) ∧
    isReadError path
      (.wrapError ("error reading from file '" ++ path ++ "': EOF") .eof) = true ∧
    isTruncatedError path 0
      (.wrapError ("error reading from file '" ++ path ++ "': EOF") .eof) = false := by
  rw [VerifyClassMagic_err, ReadClassMagic_regular w path [] h]
  refine ⟨rfl, rfl, ?_, rfl⟩
  simp only [isReadError, read_eof_text, beq_self_eq_true]

/-- C4 at the empty file `empty.class`. -/
theorem C4_empty_file_read_error_witness :
    demoWorld.files "empty.class" = .regular [] ∧
    (ReadClassMagic "empty.class" demoWorld).err
      = some (.wrapError "error reading from file 'empty.class': EOF" .eof) ∧
    (VerifyClassMagic "empty.class" demoWorld).err
      = some (.wrapError "error reading from file 'empty.class': EOF" .eof) ∧
    isReadError "empty.class" (.wrapError "error reading from file 'empty.class': EOF" .eof)
      = true ∧
    isTruncatedError "empty.class" 0
      (.wrapError "error reading from file 'empty.class': EOF" .eof) = false :=
  ⟨by decide, (C4_empty_file_read_error demoWorld "empty.class" (by decide)).1,
   (C4_empty_file_read_error demoWorld "empty.class" (by decide)).2.1,
   (C4_empty_file_read_error demoWorld "empty.class" (by decide)).2.2.1,
   (C4_empty_file_read_error demoWorld "empty.class" (by decide)).2.2.2⟩

/-- C5: for every path that names nothing, both `ReadClassMagic` and
`VerifyClassMagic` fail with the Open Error, which wraps the failure of
`os.Open` under the text "error opening file '<path>': ..."; the only system
call issued is the open; the values returned are 0 and `false`. -/
theorem C5_open_error_of_absent (w : World) (path : String) (h : w.files path = .absent) :
    (ReadClassMagic path w).err
      = some (.wrapError ("error opening file '" ++ path ++ "': "
          ++ (GoError.pathError "open" path (.errno "no such file or directory")).Error)
          (.pathError "open" path (.errno "no such file or directory"))) ∧
    (VerifyClassMagic path w).err = (ReadClassMagic path w).err ∧
    (∀ e, (ReadClassMagic path w).err = some e → isOpenError path e = true) ∧
    (ReadClassMagic path w).trace = [.open path] ∧
    (VerifyClassMagic path w).trace = [.open path] ∧
    (ReadClassMagic path w).val = 0 ∧
    (VerifyClassMagic path w).val = false := by
  rw [VerifyClassMagic_val, VerifyClassMagic_err, VerifyClassMagic_trace,
    ReadClassMagic_open_fails w path _ (Open_absent w path h)]
  refine ⟨rfl, rfl, ?_, rfl, rfl, rfl, by simp⟩
  intro e he
  simp only [Option.some.injEq] at he
  subst he
  simp [isOpenError]

/-- C5 at the path `non_existent_file.class`. -/
theorem C5_open_error_of_absent_witness :
    demoWorld.files "non_existent_file.class" = .absent ∧
    (ReadClassMagic "non_existent_file.class" demoWorld).trace
      = [.open "non_existent_file.class"] ∧
    (ReadClassMagic "non_existent_file.class" demoWorld).val = 0 ∧
    (VerifyClassMagic "non_existent_file.class" demoWorld).val = false :=
  ⟨by decide,
   (C5_open_error_of_absent demoWorld "non_existent_file.class" (by decide)).2.2.2.1,
   (C5_open_error_of_absent demoWorld "non_existent_file.class" (by decide)).2.2.2.2.2.1,
   (C5_open_error_of_absent demoWorld "non_existent_file.class" (by decide)).2.2.2.2.2.2⟩

/-- C6: for every path and every world, the error `VerifyClassMagic` returns is
the error `ReadClassMagic` returns on the same path and world: the same value
when `ReadClassMagic` fails, and `nil` when it does not. -/
theorem C6_VerifyClassMagic_same_error (w : World) (path : String) :
    (VerifyClassMagic path w).err = (ReadClassMagic path w).err :=
  VerifyClassMagic_err w path

/-- C8: for every path and every world, `ReadClassMagic` and `VerifyClassMagic`
leave the world as it was (files and held descriptors), and a second call made
after the first returns the same value, error and system calls. -/
theorem C8_idempotent (w : World) (path : String) :
    (ReadClassMagic path w).world = w ∧
    ReadClassMagic path (ReadClassMagic path w).world = ReadClassMagic path w ∧
    (VerifyClassMagic path w).world = w ∧
    VerifyClassMagic path (VerifyClassMagic path w).world = VerifyClassMagic path w := by
  refine ⟨ReadClassMagic_world w path, ?_, VerifyClassMagic_world w path, ?_⟩
  · rw [ReadClassMagic_world]
  · rw [VerifyClassMagic_world]

/-- C9: with fewer than two entries in `os.Args`, `main` prints the usage
message and exits with code 1; with a path argument it exits with code 1
exactly when `VerifyClassMagic` returns an error, and with code 0 otherwise,
whether the boolean is `true` or `false`; when it is `false` the first line
printed is the failure message naming the path. -/
theorem C9_main_exit_code (args : List String) (w : World) :
    (args.length < 2 →
      (main args w).stdout = ["Usage: tiny-jvm <class_file_path>\n"] ∧
      (main args w).exitCode = 1) ∧
    (∀ prog path rest, args = prog :: path :: rest →
      ((main args w).exitCode = 1 ↔ (VerifyClassMagic path w).err ≠ none) ∧
      ((VerifyClassMagic path w).err = none → (main args w).exitCode = 0) ∧
      ((VerifyClassMagic path w).err = none → (VerifyClassMagic path w).val = false →
        (main args w).stdout.head? = some ("Magic number for '" ++ path
          ++ "' is invalid. It is NOT a valid Java class file.\n"))) := by
  constructor
  · intro h
    simp [main, h]
  · rintro prog path rest rfl
    have hlen : ¬ (prog :: path :: rest).length < 2 := by
      simp only [List.length_cons]
      omega
    simp only [main, dif_neg hlen, List.get_eq_getElem, List.getElem_cons_succ,
      List.getElem_cons_zero]
    cases hv : (VerifyClassMagic path w).err with
    | some e => simp
    | none =>
        simp only
        cases hr : (ReadClassMagic path (VerifyClassMagic path w).world).err with
        | some e =>
            simp only [List.head?_cons, Option.some.injEq]
            refine ⟨by simp, fun _ => trivial, fun _ hf => ?_⟩
            rw [hf]
            rfl
        | none =>
            simp only [List.head?_cons, Option.some.injEq]
            refine ⟨by simp, fun _ => trivial, fun _ hf => ?_⟩
            rw [hf]
            rfl

/-- C9 at an argument list without a path, and at the path of a file holding
DE AD BE EF: exit code 1 with the usage message, and exit code 0 with the
failure message. -/
theorem C9_main_exit_code_witness :
    ((main ["tiny-jvm"] demoWorld).stdout = ["Usage: tiny-jvm <class_file_path>\n"] ∧
      (main ["tiny-jvm"] demoWorld).exitCode = 1) ∧
    (main ["tiny-jvm", "dead.bin"] demoWorld).exitCode = 0 ∧
    (main ["tiny-jvm", "dead.bin"] demoWorld).stdout.head?
      = some "Magic number for 'dead.bin' is invalid. It is NOT a valid Java class file.\n" :=
  ⟨(C9_main_exit_code ["tiny-jvm"] demoWorld).1 (by decide),
   ((C9_main_exit_code ["tiny-jvm", "dead.bin"] demoWorld).2 "tiny-jvm" "dead.bin" [] rfl).2.1
     (by decide),
   ((C9_main_exit_code ["tiny-jvm", "dead.bin"] demoWorld).2 "tiny-jvm" "dead.bin" [] rfl).2.2
     (by decide) (by decide)⟩

/-- C10: whenever `ReadClassMagic` returns an error its value is 0; whenever
`VerifyClassMagic` returns an error its boolean is `false`; so
`VerifyClassMagic` returns `true` only with a `nil` error, and it returns
`(true, nil)` if and only if `ReadClassMagic` returns `(0xCAFEBABE, nil)`. -/
theorem C10_zero_value_on_failure (w : World) (path : String) :
    ((ReadClassMagic path w).err ≠ none → (ReadClassMagic path w).val = 0) ∧
    ((VerifyClassMagic path w).err ≠ none → (VerifyClassMagic path w).val = false) ∧
    ((VerifyClassMagic path w).val = true → (VerifyClassMagic path w).err = none) ∧
    (((VerifyClassMagic path w).val = true ∧ (VerifyClassMagic path w).err = none) ↔
      ((ReadClassMagic path w).val = 0xCAFEBABE ∧ (ReadClassMagic path w).err = none)) := by
  rw [VerifyClassMagic_val, VerifyClassMagic_err]
  refine ⟨ReadClassMagic_val_of_err w path, ?_, ?_, ?_⟩
  · intro h
    simp [h]
  · intro h
    simp only [decide_eq_true_eq] at h
    exact h.1
  · simp only [decide_eq_true_eq, MagicNumber]
    tauto

/-- C10 at a 3-byte file, where both functions fail. -/
theorem C10_zero_value_on_failure_witness :
    (ReadClassMagic "short.class" demoWorld).err ≠ none ∧
    (ReadClassMagic "short.class" demoWorld).val = 0 ∧
    (VerifyClassMagic "short.class" demoWorld).err ≠ none ∧
    (VerifyClassMagic "short.class" demoWorld).val = false :=
  ⟨by decide, (C10_zero_value_on_failure demoWorld "short.class").1 (by decide),
   by decide, (C10_zero_value_on_failure demoWorld "short.class").2.1 (by decide)⟩

end TinyJVM
